import Mathlib

/-!
Verification of the chunked-upload coordination protocol and merge-and-ingest
pipeline of the Large-file-processor repository.

The definitions below are shallow embeddings of the Python source:
- `app/content/controller.py` (`create_chunk`, `init_upload`),
- `celery_app/utils.py` (`merge_chunks`, `prepare_mongo_records`,
  `add_movie_batch_to_mongo`, `update_redis_metadata`),
- `celery_app/tasks.py` (`process_chunks`).
-/

namespace LFP

/-- Session metadata hash stored in Redis under the `file_id` key
(`init_upload` writes `total_chunks`, `chunks_uploaded`, `status`;
the counters are stored as decimal strings and parsed back with
`int(v) if v.isdigit() else v`, modelled here directly as `Nat`). -/
structure Meta where
  chunks_uploaded : Nat
  total_chunks : Nat
  status : String
deriving DecidableEq, Repr

/-! ### The completion detector (controller.py lines 80-117)

The Redis `WATCH`/`MULTI`/`EXEC` transaction of `create_chunk` is embedded as
an interleaving semantics.  Each concurrent chunk-upload request is a worker.
One attempt of the `while True:` loop is two atomic events:

- `Ev.read w`: `pipe.watch(file_id)` followed by `pipe.hgetall(file_id)`,
  the unconditional increment `file_metadata["chunks_uploaded"] += 1`, the
  completion test, and — crucially, exactly as in the source — the
  `process_chunks.delay(file_id)` call, which the code places *before*
  `pipe.multi()` / `pipe.execute()`.  The snapshot of the key version models
  what `WATCH` observes.
- `Ev.commit w`: `pipe.execute()`.  It succeeds iff the key version is
  unchanged since the worker's `read`; on `WatchError` the worker goes back
  to `idle` and will retry from a fresh read (`continue`).
-/

/-- Local state of one chunk-upload worker inside the retry loop. -/
inductive WState where
  | idle : WState
  | ready (obsVer : Nat) (wm : Meta) : WState
  | done : WState
deriving DecidableEq, Repr

/-- Global state: the session hash, its write-version (what `WATCH`
compares), the number of jobs submitted to the Celery queue by
`process_chunks.delay`, the number of successful `EXEC`s, and the workers. -/
structure Sys where
  meta : Meta
  version : Nat
  jobs : Nat
  commits : Nat
  workers : Nat → WState

/-- Interleaving events: worker `w` performs its watched read (with the
increment, the completion test and the enqueue), or attempts its `EXEC`. -/
inductive Ev where
  | read (w : Nat) : Ev
  | commit (w : Nat) : Ev

/-- One atomic step of the transaction protocol of `create_chunk`
(controller.py lines 81-109). -/
def step (s : Sys) : Ev → Sys
  | .read w =>
    match s.workers w with
    | .idle =>
      let c := s.meta.chunks_uploaded + 1
      if c = s.meta.total_chunks then
        -- all chunks seen: set status and trigger process_chunks.delay
        -- (the enqueue happens here, before the EXEC of this attempt)
        { s with
          jobs := s.jobs + 1
          workers := fun i => if i = w then
            .ready s.version { s.meta with chunks_uploaded := c, status := "Processing" }
            else s.workers i }
      else
        { s with
          workers := fun i => if i = w then
            .ready s.version { s.meta with chunks_uploaded := c }
            else s.workers i }
    | _ => s
  | .commit w =>
    match s.workers w with
    | .ready obs wm =>
      if obs = s.version then
        -- EXEC succeeds: the hash is rewritten with the locally computed values
        { meta := wm
          version := s.version + 1
          jobs := s.jobs
          commits := s.commits + 1
          workers := fun i => if i = w then .done else s.workers i }
      else
        -- WatchError: discard local decisions and retry from a fresh read
        { s with workers := fun i => if i = w then .idle else s.workers i }
    | _ => s

/-- Run a schedule of interleaved events. -/
def runSys (s : Sys) : List Ev → Sys
  | [] => s
  | e :: evs => runSys (step s e) evs

/-- State right after `init_upload` wrote the session: counter `0`,
status `"Not Started"`, no job enqueued, all workers idle. -/
def initSys (total : Nat) : Sys :=
  { meta := { chunks_uploaded := 0, total_chunks := total, status := "Not Started" }
    version := 0
    jobs := 0
    commits := 0
    workers := fun _ => .idle }

/-- Protocol invariant: a worker holding a snapshot observed some past
version, and if no writer has committed since its read then its locally
computed counter is exactly the current counter plus one; moreover the
global counter equals the number of successful commits. -/
def SysInv (s : Sys) : Prop :=
  (∀ w obs wm, s.workers w = .ready obs wm →
    obs ≤ s.version ∧ (obs = s.version → wm.chunks_uploaded = s.meta.chunks_uploaded + 1)) ∧
  s.meta.chunks_uploaded = s.commits

theorem sysInv_init (total : Nat) : SysInv (initSys total) := by
  constructor
  · intro w obs wm h
    simp [initSys] at h
  · rfl

theorem sysInv_step (s : Sys) (e : Ev) (h : SysInv s) : SysInv (step s e) := by
  obtain ⟨hw, hc⟩ := h
  cases e with
  | read w =>
    cases hws : s.workers w with
    | idle =>
      by_cases hfire : s.meta.chunks_uploaded + 1 = s.meta.total_chunks
      · constructor
        · intro w' obs wm h'
          simp only [step, hws, hfire, if_pos] at h' ⊢
          by_cases hww : w' = w
          · subst hww
            simp at h'
            rcases h' with ⟨hobs, hwm⟩
            subst hobs; subst hwm
            exact ⟨Nat.le_refl _, fun _ => rfl⟩
          · simp [hww] at h'
            simpa [hfire] using hw w' obs wm h'
        · simpa [step, hws, hfire] using hc
      · constructor
        · intro w' obs wm h'
          simp only [step, hws, hfire, if_neg] at h' ⊢
          by_cases hww : w' = w
          · subst hww
            simp at h'
            rcases h' with ⟨hobs, hwm⟩
            subst hobs; subst hwm
            exact ⟨Nat.le_refl _, fun _ => rfl⟩
          · simp [hww] at h'
            exact hw w' obs wm h'
        · simpa [step, hws, hfire] using hc
    | ready obs wm =>
      constructor
      · intro w' obs' wm' h'
        simp only [step, hws] at h' ⊢
        exact hw w' obs' wm' h'
      · simpa [step, hws] using hc
    | done =>
      constructor
      · intro w' obs' wm' h'
        simp only [step, hws] at h' ⊢
        exact hw w' obs' wm' h'
      · simpa [step, hws] using hc
  | commit w =>
    cases hws : s.workers w with
    | idle =>
      constructor
      · intro w' obs' wm' h'
        simp only [step, hws] at h' ⊢
        exact hw w' obs' wm' h'
      · simpa [step, hws] using hc
    | ready obs wm =>
      by_cases hv : obs = s.version
      · constructor
        · intro w' obs' wm' h'
          simp only [step, hws, hv, if_pos] at h' ⊢
          by_cases hww : w' = w
          · subst hww; simp at h'
          · simp [hww] at h'
            have hle := (hw w' obs' wm' h').1
            constructor
            · exact Nat.le_succ_of_le hle
            · intro heq
              exact absurd heq (Nat.ne_of_lt (Nat.lt_succ_of_le hle))
        · have hwmc : wm.chunks_uploaded = s.meta.chunks_uploaded + 1 :=
            (hw w obs wm hws).2 hv
          simp only [step, hws, hv, if_pos]
          rw [hwmc, hc]
      · constructor
        · intro w' obs' wm' h'
          simp only [step, hws, hv, if_neg] at h' ⊢
          by_cases hww : w' = w
          · subst hww; simp at h'
          · simp [hww] at h'
            exact hw w' obs' wm' h'
        · simpa [step, hws, hv] using hc
    | done =>
      constructor
      · intro w' obs' wm' h'
        simp only [step, hws] at h' ⊢
        exact hw w' obs' wm' h'
      · simpa [step, hws] using hc

theorem sysInv_run (s : Sys) (evs : List Ev) (h : SysInv s) : SysInv (runSys s evs) := by
  induction evs generalizing s with
  | nil => exact h
  | cons e evs ih => exact ih (step s e) (sysInv_step s e h)

theorem commits_step_mono (s : Sys) (e : Ev) : s.commits ≤ (step s e).commits := by
  cases e with
  | read w =>
    cases hws : s.workers w with
    | idle =>
      by_cases hfire : s.meta.chunks_uploaded + 1 = s.meta.total_chunks <;>
        simp [step, hws, hfire]
    | ready obs wm => simp [step, hws]
    | done => simp [step, hws]
  | commit w =>
    cases hws : s.workers w with
    | idle => simp [step, hws]
    | ready obs wm =>
      by_cases hv : obs = s.version <;> simp [step, hws, hv]
    | done => simp [step, hws]

theorem commits_run_mono (s : Sys) (evs : List Ev) : s.commits ≤ (runSys s evs).commits := by
  induction evs generalizing s with
  | nil => exact Nat.le_refl _
  | cons e evs ih => exact Nat.le_trans (commits_step_mono s e) (ih (step s e))

theorem runSys_append (s : Sys) (evs evs' : List Ev) :
    runSys s (evs ++ evs') = runSys (runSys s evs) evs' := by
  induction evs generalizing s with
  | nil => rfl
  | cons e evs ih => simpa [runSys] using ih (step s e)

/-! ### The retry loop in isolation (controller.py lines 82-109)

`while True:` / `except WatchError: continue` / `except RedisError: return 500`.
A run of the loop is driven by the sequence of outcomes its successive
attempts observe.  The source keeps no attempt counter, sleeps for no
backoff, and defines no conflict-exhaustion error: exhausting a trace of
conflicts leaves the loop still running. -/

/-- Outcome of one attempt of the transaction: `EXEC` succeeded, `EXEC`
raised `WatchError`, or a non-conflict `RedisError` occurred. -/
inductive TxnOutcome where
  | ok : TxnOutcome
  | conflict : TxnOutcome
  | fail : TxnOutcome
deriving DecidableEq, Repr

/-- What the `while True:` loop has produced after consuming a trace of
attempt outcomes: it broke out after a successful commit, returned the
500 response on a `RedisError`, or is still looping. -/
inductive LoopResult where
  | committed : LoopResult
  | error500 : LoopResult
  | running : LoopResult
deriving DecidableEq, Repr

/-- The retry loop of `create_chunk`: `break` on success, `continue` on
`WatchError`, return 500 on `RedisError`; no attempt bound, no backoff. -/
def createChunkLoop : List TxnOutcome → LoopResult
  | [] => .running
  | .ok :: _ => .committed
  | .conflict :: rest => createChunkLoop rest
  | .fail :: _ => .error500

/-- Number of attempts the loop has made while consuming a trace. -/
def attemptsUsed : List TxnOutcome → Nat
  | [] => 0
  | .ok :: _ => 1
  | .conflict :: rest => attemptsUsed rest + 1
  | .fail :: _ => 1

/-! ### The merge worker (celery_app/utils.py, `merge_chunks`, lines 77-124)

Chunk blobs live in the per-session directory `UPLOAD_DIR/file_id/`, each
named by the `chunk_id` form field (the upload script sends plain decimal
indices).  `merge_chunks` lists them, sorts them with
`key=lambda x: int(os.path.basename(x).split('_')[-1])`, concatenates the
payloads into `MERGE_DIR/{file_id}.csv`, then deletes every chunk and the
directory.  Bytes are modelled as `Nat`, a blob as `String × List Nat`. -/

/-- The characters after the last underscore of a file name:
`os.path.basename(x).split('_')[-1]`. -/
def lastComp (cs : List Char) : List Char :=
  cs.foldl (fun acc c => if c.toNat = 95 then [] else acc ++ [c]) []

/-- `int(...)` applied to a decimal numeral, as a total function on the
numeral's characters. -/
def decimalVal (cs : List Char) : Nat :=
  cs.foldl (fun n c => n * 10 + (c.toNat - 48)) 0

/-- The numeric sort key `int(os.path.basename(x).split('_')[-1])` used by
`merge_chunks` (for a chunk named `"10"` this is the number `10`). -/
def chunkKey (name : String) : Nat :=
  decimalVal (lastComp name.data)

/-- `sorted(chunk_files, key=lambda x: int(...))`: Python's stable sort by
the numeric key, embedded as a stable insertion sort under the key order. -/
def sortChunks (files : List (String × List Nat)) : List (String × List Nat) :=
  List.insertionSort (fun a b => chunkKey a.1 ≤ chunkKey b.1) files

/-- The byte content `merge_chunks` writes to the output artifact:
payloads concatenated in sorted order. -/
def mergedContent (files : List (String × List Nat)) : List Nat :=
  ((sortChunks files).map Prod.snd).flatten

/-- The pieces of the filesystem `merge_chunks` touches: the per-session
chunk directory (`none` when absent) and the artifact at
`MERGE_DIR/{file_id}.csv` (`none` when no file exists at that path). -/
structure MergeFS where
  chunkDir : Option (List (String × List Nat))
  output : Option (List Nat)
deriving DecidableEq, Repr

/-- `merge_chunks` with an injected I/O failure: `failAt = some k` makes the
read of the `k`-th sorted chunk raise `OSError` (for `k` past the end no
failure occurs).  The output file is opened with `open(output_file, "wb")`
at the final path and written chunk by chunk, so when the failure hits, the
payloads already processed are on disk at the output path; the exception is
caught by the trailing handlers, which only print, so the function returns
`None` and neither deletes any chunk nor removes the directory.  On full
success every chunk is removed (`os.remove`), then the empty directory
(`os.rmdir`), and the output path is returned. -/
def merge_chunks (fs : MergeFS) (failAt : Option Nat) :
    Option (List Nat) × MergeFS :=
  match fs.chunkDir with
  | none => (none, fs)          -- FileNotFoundError: caught, printed, returns None
  | some files =>
    if files.isEmpty then (none, fs)   -- ValueError "No chunk files found"
    else
      let sorted := sortChunks files
      match failAt with
      | some k =>
        if k < sorted.length then
          -- OSError while reading chunk k: the first k payloads were written
          (none, { fs with output := some (((sorted.take k).map Prod.snd).flatten) })
        else
          (some (mergedContent files),
            { chunkDir := none, output := some (mergedContent files) })
      | none =>
        (some (mergedContent files),
          { chunkDir := none, output := some (mergedContent files) })

/-! ### Session store and the HTTP-facing handlers (app/content/controller.py) -/

/-- The session hash written by `init_upload`:
`{"file_id": ..., "total_chunks": ..., "chunks_uploaded": ..., "status": ...}`. -/
structure Rec where
  file_id : String
  total_chunks : Nat
  chunks_uploaded : Nat
  status : String
deriving DecidableEq, Repr

/-- The Redis key-value store of sessions, keyed by `file_id`. -/
def Store := String → Option Rec

/-- `init_upload(total_chunks)` (controller.py lines 169-216): reject
`total_chunks < 1` with a 400 and write nothing; otherwise store a fresh
record under a newly generated id (`uuid4`, modelled by the `fresh`
argument) and answer 201.  The result is the HTTP status code and the
store after the call. -/
def init_upload (store : Store) (total_chunks : Int) (fresh : String) :
    Nat × Store :=
  if total_chunks < 1 then (400, store)
  else
    (201, fun k => if k = fresh then
      some { file_id := fresh
             total_chunks := total_chunks.toNat
             chunks_uploaded := 0
             status := "Not Started" }
      else store k)

/-- The chunk blob store: `UPLOAD_DIR/{file_id}/{chunk_id}` → payload. -/
structure CState where
  sessions : Store
  blobs : String × String → Option (List Nat)

/-- One `create_chunk` request (controller.py lines 47-120) whose three form
fields are present, in an uncontended execution (its single transaction
attempt commits).  Empty strings are falsy in `if not file_id or not
chunk_id` → 400.  An unknown `file_id` → 404 before any filesystem write.
Otherwise `file_chunk.save(chunk_path)` stores the payload under
`(file_id, chunk_id)` — overwriting any previous blob there — and the
transaction increments `chunks_uploaded`, switching status to
`"Processing"` when the counter reaches `total_chunks`. -/
def create_chunk (st : CState) (fid cid : String) (payload : List Nat) :
    Nat × CState :=
  if fid = "" ∨ cid = "" then (400, st)
  else
    match st.sessions fid with
    | none => (404, st)
    | some m =>
      let c := m.chunks_uploaded + 1
      let m' : Rec :=
        { m with
          chunks_uploaded := c
          status := if c = m.total_chunks then "Processing" else m.status }
      (201,
        { sessions := fun k => if k = fid then some m' else st.sessions k
          blobs := fun k => if k = (fid, cid) then some payload else st.blobs k })

/-! ### The metadata updater (celery_app/utils.py, `update_redis_metadata`) -/

/-- `update_redis_metadata(file_id, status)` (utils.py lines 213-252):
an empty `file_id` raises `ValueError` (caught, printed, nothing written);
a missing hash raises `KeyError` (likewise); otherwise the whole hash is
read with `hgetall`, its `status` field replaced, and the full mapping
written back with `hset`. -/
def update_redis_metadata (store : Store) (file_id status : String) : Store :=
  if file_id = "" then store
  else
    match store file_id with
    | none => store
    | some m => fun k => if k = file_id then some { m with status := status } else store k

/-! ### The batch processor (utils.py `prepare_mongo_records`,
`add_movie_batch_to_mongo`; tasks.py `process_chunks`)

A CSV cell as `pandas.read_csv` delivers it: either a missing value (NaN)
or a string.  A prepared Mongo field value: the null marker (`None`/`NaT`),
a plain string, or a parsed datetime (modelled as `Nat`, which is what
"sortable temporal type" needs).  `pd.to_datetime` itself is a pandas
routine, so it enters the model as an arbitrary parser argument
`pd : String → Option Nat` (`none` = unparseable). -/

/-- A cell of a DataFrame read from the merged CSV. -/
inductive Cell where
  | missing : Cell
  | str (s : String) : Cell
deriving DecidableEq, Repr

/-- A field value of a record prepared for MongoDB insertion. -/
inductive MVal where
  | null : MVal
  | str (s : String) : MVal
  | date (d : Nat) : MVal
deriving DecidableEq, Repr

/-- The per-cell effect of `prepare_mongo_records` (utils.py lines 156-160):
`batch.where(pd.notnull(batch), None)` turns every NaN into the null
marker, and `pd.to_datetime(batch['date_added'], errors="coerce")` turns
the `date_added` column into datetimes, with unparseable values coerced to
the temporal null `NaT` instead of raising. -/
def normalizeCell (pd : String → Option Nat) (col : String) : Cell → MVal
  | .missing => .null
  | .str s =>
    if col = "date_added" then
      match pd s with
      | some d => .date d
      | none => .null
    else .str s

/-- `prepare_mongo_records(batch)` (utils.py lines 127-174): an empty
DataFrame raises `ValueError`, which the trailing handlers swallow so the
function returns `None`; otherwise every cell is normalized and the frame
becomes a list of records (`to_dict(orient="records")`). -/
def prepare_mongo_records (pd : String → Option Nat)
    (batch : List (List (String × Cell))) :
    Option (List (List (String × MVal))) :=
  if batch.isEmpty then none
  else some (batch.map (fun row => row.map (fun kv => (kv.1, normalizeCell pd kv.1 kv.2))))

/-- `add_movie_batch_to_mongo(batch)` (utils.py lines 176-210): prepare the
records and `insert_many` them into the catalog collection (modelled as the
list of inserted records); with no records, nothing is inserted. -/
def add_movie_batch_to_mongo (pd : String → Option Nat)
    (catalog : List (List (String × MVal)))
    (batch : List (List (String × Cell))) : List (List (String × MVal)) :=
  match prepare_mongo_records pd batch with
  | none => catalog
  | some records => if records.isEmpty then catalog else catalog ++ records

/-! ### The background pipeline's control flow (celery_app/tasks.py lines 52-95) -/

/-- `process_chunks(file_id)`: fetch the metadata (early exit when absent);
merge the chunks — on failure `merge_chunks` swallows its exception and
returns `None`, so the subsequent `pd.read_csv(None, ...)` raises and the
generic handler returns with the session untouched; otherwise iterate the
CSV batches, where `add_movie_batch_to_mongo` catches every insert error
internally (`ok = false` models a failed `insert_many`) so the loop always
continues; finally call `update_redis_metadata(file_id, "Completed")`.
Result: the store after the run, and how many batch inserts succeeded. -/
def process_chunks_run (store : Store) (file_id : String) (mergeOk : Bool)
    (batchOk : List Bool) : Store × Nat :=
  match store file_id with
  | none => (store, 0)
  | some _ =>
    if mergeOk then
      (update_redis_metadata store file_id "Completed",
        batchOk.foldl (fun n ok => if ok then n + 1 else n) 0)
    else (store, 0)

/-! ## Claims -/

/-- C1: the claim says at most one (and on completion exactly one) pipeline
job is ever enqueued per session, and only by an attempt whose
compare-and-swap commit succeeds.  The code calls `process_chunks.delay`
*inside* the watched attempt, before `pipe.multi()`/`pipe.execute()`
(controller.py line 99 versus 103-105), so an attempt that subsequently
fails its commit has already enqueued.  Evaluation at a concrete racing
schedule — `totalChunks = 1`, two concurrent uploads of the single chunk,
both reading the counter `0` before either commits — shows two successful
upload commits producing **two** enqueued jobs, the second from an attempt
whose commit was rejected. -/
theorem C1_enqueue_before_commit_two_jobs :
    (runSys (initSys 1)
      [.read 0, .read 1, .commit 0, .commit 1, .read 1, .commit 1]).jobs = 2 ∧
    (runSys (initSys 1)
      [.read 0, .read 1, .commit 0, .commit 1, .read 1, .commit 1]).commits = 2 := by
  decide

/-- C2 counterexample: the claim says the retry loop is bounded, with
backoff, and reports `ConflictExceeded` on exhaustion.  The loop is
`while True: ... except WatchError: continue` with no counter, no sleep and
no such error anywhere in the code: after one hundred consecutive rejected
commits it is still retrying and has reported nothing, and a trace of one
hundred conflicts followed by a success commits on attempt 101. -/
theorem C2_unbounded_retries_counterexample :
    createChunkLoop (List.replicate 100 TxnOutcome.conflict) = LoopResult.running ∧
    createChunkLoop (List.replicate 100 TxnOutcome.conflict ++ [TxnOutcome.ok]) =
      LoopResult.committed ∧
    attemptsUsed (List.replicate 100 TxnOutcome.conflict ++ [TxnOutcome.ok]) = 101 := by
  decide

/-- C2 (amended): the optimistic-concurrency retry loop of `create_chunk`
is **unbounded** and has no backoff: on every commit rejected by a
concurrent writer it retries from a fresh read, for any number of
consecutive conflicts, and it terminates only when an attempt's commit
succeeds (breaking out) or a non-conflict Redis error occurs (reported as
a 500); no `ConflictExceeded` error exists or is ever reported. -/
theorem C2_retry_loop_unbounded (k : Nat) (rest : List TxnOutcome) :
    createChunkLoop (List.replicate k TxnOutcome.conflict ++ TxnOutcome.ok :: rest) =
      LoopResult.committed ∧
    createChunkLoop (List.replicate k TxnOutcome.conflict ++ TxnOutcome.fail :: rest) =
      LoopResult.error500 ∧
    createChunkLoop (List.replicate k TxnOutcome.conflict) = LoopResult.running ∧
    attemptsUsed (List.replicate k TxnOutcome.conflict ++ TxnOutcome.ok :: rest) = k + 1 := by
  induction k with
  | zero => exact ⟨rfl, rfl, rfl, rfl⟩
  | succ n ih =>
    simpa [List.replicate_succ, createChunkLoop, attemptsUsed] using ih

/-- C3 counterexample: the claim says `chunksUploaded ≤ totalChunks` always
holds, even across re-uploads of an already-uploaded chunk index.  The
transaction increments unconditionally, so with `totalChunks = 1` and two
committed uploads (the second necessarily a re-upload of the single index)
the counter reaches `2 > 1`. -/
theorem C3_counter_overshoot_counterexample :
    (runSys (initSys 1) [.read 0, .commit 0, .read 1, .commit 1]).meta.chunks_uploaded = 2 ∧
    (runSys (initSys 1) [.read 0, .commit 0, .read 1, .commit 1]).meta.total_chunks = 1 ∧
    ¬ ((runSys (initSys 1) [.read 0, .commit 0, .read 1, .commit 1]).meta.chunks_uploaded ≤
        (runSys (initSys 1) [.read 0, .commit 0, .read 1, .commit 1]).meta.total_chunks) := by
  decide

/-- C3 (amended): along every interleaving of concurrent chunk uploads the
`chunksUploaded` counter is monotonically non-decreasing (and, being a
count, never negative), and it always equals the number of successfully
committed upload transactions — so it stays within `totalChunks` exactly
as long as at most `totalChunks` uploads commit, and exceeds it when
re-uploaded indices push the number of commits higher. -/
theorem C3_counter_monotone_eq_commits (total : Nat) (evs evs' : List Ev) :
    (runSys (initSys total) evs).meta.chunks_uploaded = (runSys (initSys total) evs).commits ∧
    (runSys (initSys total) evs).meta.chunks_uploaded ≤
      (runSys (initSys total) (evs ++ evs')).meta.chunks_uploaded := by
  have h1 := sysInv_run (initSys total) evs (sysInv_init total)
  have h2 := sysInv_run (initSys total) (evs ++ evs') (sysInv_init total)
  refine ⟨h1.2, ?_⟩
  rw [h1.2, h2.2, runSys_append]
  exact commits_run_mono _ evs'

theorem sorted_chunkKey_lt_of_perm (arrival canonical : List (String × List Nat))
    (hsort : List.Sorted (fun a b => chunkKey a.1 < chunkKey b.1) canonical)
    (hperm : arrival.Perm canonical) : sortChunks arrival = canonical := by
  have hps : (sortChunks arrival).Perm canonical := by
    unfold sortChunks
    exact (List.perm_insertionSort (fun a b => chunkKey a.1 ≤ chunkKey b.1) arrival).trans hperm
  haveI : IsTotal (String × List Nat) (fun a b => chunkKey a.1 ≤ chunkKey b.1) :=
    ⟨fun a b => Nat.le_total _ _⟩
  haveI : IsTrans (String × List Nat) (fun a b => chunkKey a.1 ≤ chunkKey b.1) :=
    ⟨fun a b c h1 h2 => Nat.le_trans h1 h2⟩
  have hsorted : List.Sorted (fun a b => chunkKey a.1 ≤ chunkKey b.1) (sortChunks arrival) := by
    unfold sortChunks
    exact List.sorted_insertionSort _ arrival
  have hne : canonical.Pairwise (fun a b => chunkKey a.1 ≠ chunkKey b.1) :=
    hsort.imp (fun h => Nat.ne_of_lt h)
  have hneS : (sortChunks arrival).Pairwise (fun a b => chunkKey a.1 ≠ chunkKey b.1) :=
    (hps.pairwise_iff (fun h => (Ne.symm h))).mpr hne
  have hstrict : List.Sorted (fun a b => chunkKey a.1 < chunkKey b.1) (sortChunks arrival) :=
    (hsorted.and hneS).imp (fun h => Nat.lt_of_le_of_ne h.1 h.2)
  haveI : IsAntisymm (String × List Nat) (fun a b => chunkKey a.1 < chunkKey b.1) :=
    ⟨fun a b h1 h2 => absurd h2 (Nat.lt_asymm h1)⟩
  exact List.eq_of_perm_of_sorted hps hstrict hsort

/-- C4: for a complete set of distinct chunks, in whatever order the blob
listing delivers them, the merged artifact is byte-for-byte the
concatenation of the payloads in ascending **numeric** chunk-index order
(`sorted(..., key=lambda x: int(os.path.basename(x).split('_')[-1]))`):
if `canonical` is the chunk set arranged by strictly ascending numeric key
and `arrival` any permutation of it, the merge of `arrival` equals the
concatenation of `canonical`'s payloads. -/
theorem C4_merge_numeric_order (arrival canonical : List (String × List Nat))
    (hsort : List.Sorted (fun a b => chunkKey a.1 < chunkKey b.1) canonical)
    (hperm : arrival.Perm canonical) :
    mergedContent arrival = (canonical.map Prod.snd).flatten := by
  rw [mergedContent, sorted_chunkKey_lt_of_perm arrival canonical hsort hperm]

/-- C4 witness: chunks named `"9"`, `"10"`, `"0"` arriving in the order
`"10", "0", "9"` merge to the payloads in numeric order 0, 9, 10 — with
`"10"` after `"9"`, though `"10" < "9"` lexically. -/
theorem C4_merge_numeric_order_witness :
    chunkKey "9" = 9 ∧ chunkKey "10" = 10 ∧
    mergedContent [("10", [7, 8]), ("0", [1]), ("9", [5])] =
      ([("0", [1]), ("9", [5]), ("10", [7, 8])].map Prod.snd).flatten ∧
    ([("0", [1]), ("9", [5]), ("10", [7, 8])].map
        (Prod.snd : String × List Nat → List Nat)).flatten = [1, 5, 7, 8] :=
  ⟨by decide, by decide,
    C4_merge_numeric_order [("10", [7, 8]), ("0", [1]), ("9", [5])]
      [("0", [1]), ("9", [5]), ("10", [7, 8])] (by decide) (by decide),
    by decide⟩

/-- C5 counterexample: the claim says the artifact write is atomic (temp
file plus rename), so no partially-written artifact is ever visible at the
output path.  `merge_chunks` opens the final output path directly
(`open(output_file, "wb")`, utils.py line 101); a failure while reading the
second of two chunks leaves the first chunk's bytes on disk at the output
path — a visible partial artifact (the chunks themselves are, correctly,
untouched). -/
theorem C5_partial_artifact_counterexample :
    (merge_chunks ⟨some [("0", [10]), ("1", [20])], none⟩ (some 1)).1 = none ∧
    (merge_chunks ⟨some [("0", [10]), ("1", [20])], none⟩ (some 1)).2.output = some [10] ∧
    (merge_chunks ⟨some [("0", [10]), ("1", [20])], none⟩ (some 1)).2.chunkDir =
      some [("0", [10]), ("1", [20])] ∧
    mergedContent [("0", [10]), ("1", [20])] = [10, 20] := by
  decide

/-- C5 (amended): a failure at any chunk read aborts the merge without
deleting any chunk blob (the directory is left exactly as it was), but the
artifact is written directly at the final output path, so the aborted run
leaves the already-concatenated prefix of the full artifact visible there;
chunk blobs are deleted and the now-empty namespace removed only after the
whole reassembly succeeded, in which case the full artifact is at the
output path. -/
theorem C5_merge_failure_no_cleanup (files : List (String × List Nat)) (k : Nat)
    (hne : files ≠ []) (hk : k < (sortChunks files).length) :
    merge_chunks ⟨some files, none⟩ (some k) =
      (none, ⟨some files, some (((sortChunks files).take k).map Prod.snd).flatten⟩) ∧
    mergedContent files =
      (((sortChunks files).take k).map Prod.snd).flatten ++
        (((sortChunks files).drop k).map Prod.snd).flatten ∧
    merge_chunks ⟨some files, none⟩ none =
      (some (mergedContent files), ⟨none, some (mergedContent files)⟩) := by
  have hE : files.isEmpty = false := by
    cases files with
    | nil => exact absurd rfl hne
    | cons a l => rfl
  refine ⟨?_, ?_, ?_⟩
  · simp [merge_chunks, hE, hk]
  · rw [mergedContent, ← List.flatten_append, ← List.map_append, List.take_append_drop]
  · simp [merge_chunks, hE]

/-- C5 witness: the amended statement applied to two concrete chunks with a
failure injected at the second read. -/
theorem C5_merge_failure_no_cleanup_witness :
    merge_chunks ⟨some [("0", [10]), ("1", [20, 30])], none⟩ (some 1) =
      (none, ⟨some [("0", [10]), ("1", [20, 30])],
        some (((sortChunks [("0", [10]), ("1", [20, 30])]).take 1).map Prod.snd).flatten⟩) ∧
    mergedContent [("0", [10]), ("1", [20, 30])] =
      (((sortChunks [("0", [10]), ("1", [20, 30])]).take 1).map Prod.snd).flatten ++
        (((sortChunks [("0", [10]), ("1", [20, 30])]).drop 1).map Prod.snd).flatten ∧
    merge_chunks ⟨some [("0", [10]), ("1", [20, 30])], none⟩ none =
      (some (mergedContent [("0", [10]), ("1", [20, 30])]),
        ⟨none, some (mergedContent [("0", [10]), ("1", [20, 30])])⟩) :=
  C5_merge_failure_no_cleanup [("0", [10]), ("1", [20, 30])] 1 (by decide) (by decide)

/-- C6 counterexample: the claim says that after `status = Processing` a
failing pipeline run (merge failure **or batch-insert failure**) leaves the
status unchanged at `Processing`.  `add_movie_batch_to_mongo` catches every
insert error internally and `process_chunks` then unconditionally sets
`status = "Completed"`, so a run whose only batch insert fails still
transitions the session to `Completed`. -/
theorem C6_batch_failure_completes_counterexample :
    ((process_chunks_run
        (fun k => if k = "f1" then some ⟨"f1", 2, 2, "Processing"⟩ else none)
        "f1" true [false]).1 "f1") = some ⟨"f1", 2, 2, "Completed"⟩ ∧
    (process_chunks_run
        (fun k => if k = "f1" then some ⟨"f1", 2, 2, "Processing"⟩ else none)
        "f1" true [false]).2 = 0 := by
  decide

/-- C6 (amended): once a session is at `Processing`, a **merge** failure
leaves the whole store (in particular the session's status) unchanged —
there is no user-visible error surface and no transition to `Failed` or
`Completed` on that run; a **batch-insert** failure, however, is swallowed
per batch and the run still finishes by setting the session's status to
`Completed`, touching no other session. -/
theorem C6_pipeline_status_transitions (store : Store) (fid : String) (m : Rec)
    (batchOk : List Bool) (hm : store fid = some m) (hfid : fid ≠ "") :
    (process_chunks_run store fid false batchOk).1 = store ∧
    (process_chunks_run store fid true batchOk).1 fid = some { m with status := "Completed" } ∧
    (∀ k, k ≠ fid → (process_chunks_run store fid true batchOk).1 k = store k) := by
  refine ⟨?_, ?_, ?_⟩
  · simp [process_chunks_run, hm]
  · simp [process_chunks_run, hm, update_redis_metadata, hfid]
  · intro k hk
    simp [process_chunks_run, hm, update_redis_metadata, hfid, hk]

/-- C6 witness: a session stuck at `Processing` when the merge fails, and
driven to `Completed` by a run whose single batch insert fails. -/
theorem C6_pipeline_status_transitions_witness :
    (process_chunks_run (fun k => if k = "f" then some ⟨"f", 1, 1, "Processing"⟩ else none)
        "f" false [false]).1 =
      (fun k => if k = "f" then some ⟨"f", 1, 1, "Processing"⟩ else none) ∧
    (process_chunks_run (fun k => if k = "f" then some ⟨"f", 1, 1, "Processing"⟩ else none)
        "f" true [false]).1 "f" = some ⟨"f", 1, 1, "Completed"⟩ ∧
    (∀ k, k ≠ "f" →
      (process_chunks_run (fun k => if k = "f" then some ⟨"f", 1, 1, "Processing"⟩ else none)
        "f" true [false]).1 k =
      (fun j => if j = "f" then some (⟨"f", 1, 1, "Processing"⟩ : Rec) else none) k) :=
  C6_pipeline_status_transitions
    (fun k => if k = "f" then some ⟨"f", 1, 1, "Processing"⟩ else none)
    "f" ⟨"f", 1, 1, "Processing"⟩ [false] (by decide) (by decide)

/-- C7: `init_upload` rejects every `totalChunks < 1` with a 400 and leaves
the store untouched (no session is created); for `totalChunks ≥ 1` it
answers 201 and writes, under the freshly generated id (`uuid4`, whose
global uniqueness is the hypothesis `hfresh` that the id is unused), a
session record with `chunks_uploaded = 0` and `status = "Not Started"`,
leaving every other key unchanged; the new id differs from every id
already in the store. -/
theorem C7_init_upload_validation (store : Store) (t : Int) (fresh : String)
    (hfresh : store fresh = none) :
    (t < 1 → init_upload store t fresh = (400, store)) ∧
    (1 ≤ t →
      (init_upload store t fresh).1 = 201 ∧
      (init_upload store t fresh).2 fresh =
        some { file_id := fresh, total_chunks := t.toNat,
               chunks_uploaded := 0, status := "Not Started" } ∧
      (∀ k, k ≠ fresh → (init_upload store t fresh).2 k = store k) ∧
      (∀ k r, store k = some r → k ≠ fresh)) := by
  constructor
  · intro h
    simp [init_upload, h]
  · intro h
    have h' : ¬ t < 1 := not_lt.mpr h
    refine ⟨by simp [init_upload, h'], by simp [init_upload, h'], ?_, ?_⟩
    · intro k hk
      simp [init_upload, h', hk]
    · intro k r hkr hke
      rw [hke, hfresh] at hkr
      exact Option.noConfusion hkr

/-- C7 witness: `totalChunks = 0` is rejected with a 400 and nothing is
stored; `totalChunks = 3` yields a 201 and the expected fresh record. -/
theorem C7_init_upload_validation_witness :
    init_upload (fun _ => none) 0 "id-1" = (400, fun _ => none) ∧
    (init_upload (fun _ => none) 3 "id-1").1 = 201 ∧
    (init_upload (fun _ => none) 3 "id-1").2 "id-1" =
      some { file_id := "id-1", total_chunks := (3 : Int).toNat,
             chunks_uploaded := 0, status := "Not Started" } ∧
    (∀ k, k ≠ "id-1" → (init_upload (fun _ => none) 3 "id-1").2 k = (fun _ => none : Store) k) :=
  ⟨(C7_init_upload_validation (fun _ => none) 0 "id-1" rfl).1 (by decide),
    ((C7_init_upload_validation (fun _ => none) 3 "id-1" rfl).2 (by decide)).1,
    ((C7_init_upload_validation (fun _ => none) 3 "id-1" rfl).2 (by decide)).2.1,
    ((C7_init_upload_validation (fun _ => none) 3 "id-1" rfl).2 (by decide)).2.2.1⟩

/-- C8: `create_chunk` validates the session before touching storage — an
unknown `file_id` yields a 404 with the state (blobs and sessions alike)
completely unchanged; a successful call stores the payload under
`(file_id, chunk_id)` and changes no other blob (at most one new blob per
call), and a repeat call with the same pair overwrites the stored payload
(last-write-wins). -/
theorem C8_create_chunk_validation (st : CState) (fid cid : String) (p q : List Nat)
    (hfid : fid ≠ "") (hcid : cid ≠ "") :
    (st.sessions fid = none → create_chunk st fid cid p = (404, st)) ∧
    (∀ m, st.sessions fid = some m →
      (create_chunk st fid cid p).1 = 201 ∧
      (create_chunk st fid cid p).2.blobs (fid, cid) = some p ∧
      (∀ k, k ≠ (fid, cid) → (create_chunk st fid cid p).2.blobs k = st.blobs k) ∧
      (create_chunk (create_chunk st fid cid p).2 fid cid q).2.blobs (fid, cid) = some q) := by
  constructor
  · intro h
    simp [create_chunk, hfid, hcid, h]
  · intro m hm
    refine ⟨by simp [create_chunk, hfid, hcid, hm], by simp [create_chunk, hfid, hcid, hm],
      ?_, ?_⟩
    · intro k hk
      simp [create_chunk, hfid, hcid, hm, hk]
    · simp [create_chunk, hfid, hcid, hm]

/-- C8 witness: with one known session `"a"`, uploading to the unknown id
`"b"` is a 404 leaving the state untouched, and uploading chunk `"0"` to
`"a"` twice stores first `[1]`, then `[2]` (last write wins), touching no
other blob key. -/
theorem C8_create_chunk_validation_witness :
    create_chunk ⟨fun k => if k = "a" then some ⟨"a", 2, 0, "Not Started"⟩ else none,
        fun _ => none⟩ "b" "0" [1] =
      (404, ⟨fun k => if k = "a" then some ⟨"a", 2, 0, "Not Started"⟩ else none,
        fun _ => none⟩) ∧
    ((create_chunk ⟨fun k => if k = "a" then some ⟨"a", 2, 0, "Not Started"⟩ else none,
        fun _ => none⟩ "a" "0" [1]).1 = 201 ∧
      (create_chunk ⟨fun k => if k = "a" then some ⟨"a", 2, 0, "Not Started"⟩ else none,
        fun _ => none⟩ "a" "0" [1]).2.blobs ("a", "0") = some [1] ∧
      (∀ k, k ≠ ("a", "0") →
        (create_chunk ⟨fun j => if j = "a" then some ⟨"a", 2, 0, "Not Started"⟩ else none,
          fun _ => none⟩ "a" "0" [1]).2.blobs k = (fun _ => none : String × String → Option (List Nat)) k) ∧
      (create_chunk (create_chunk ⟨fun k => if k = "a" then some ⟨"a", 2, 0, "Not Started"⟩ else none,
        fun _ => none⟩ "a" "0" [1]).2 "a" "0" [2]).2.blobs ("a", "0") = some [2]) :=
  ⟨(C8_create_chunk_validation
      ⟨fun k => if k = "a" then some ⟨"a", 2, 0, "Not Started"⟩ else none, fun _ => none⟩
      "b" "0" [1] [2] (by decide) (by decide)).1 (by decide),
    (C8_create_chunk_validation
      ⟨fun k => if k = "a" then some ⟨"a", 2, 0, "Not Started"⟩ else none, fun _ => none⟩
      "a" "0" [1] [2] (by decide) (by decide)).2 ⟨"a", 2, 0, "Not Started"⟩ (by decide)⟩

/-- C9: for every nonempty batch, `prepare_mongo_records` produces exactly
the batch's rows with every cell normalized — missing values become the
explicit null marker, the `date_added` column is parsed into the sortable
temporal type with unparseable values becoming null instead of failing the
batch (the result is `some ...` for *every* parser behavior) — and
`add_movie_batch_to_mongo` bulk-inserts precisely those records into the
catalog. -/
theorem C9_batch_normalization (pd : String → Option Nat)
    (catalog : List (List (String × MVal))) (batch : List (List (String × Cell)))
    (h : batch ≠ []) :
    prepare_mongo_records pd batch =
      some (batch.map (fun row => row.map (fun kv => (kv.1, normalizeCell pd kv.1 kv.2)))) ∧
    add_movie_batch_to_mongo pd catalog batch =
      catalog ++ batch.map (fun row => row.map (fun kv => (kv.1, normalizeCell pd kv.1 kv.2))) ∧
    (∀ col, normalizeCell pd col Cell.missing = MVal.null) ∧
    (∀ s, pd s = none → normalizeCell pd "date_added" (Cell.str s) = MVal.null) ∧
    (∀ s d, pd s = some d → normalizeCell pd "date_added" (Cell.str s) = MVal.date d) := by
  cases batch with
  | nil => exact absurd rfl h
  | cons b bs =>
    refine ⟨rfl, ?_, fun col => rfl, ?_, ?_⟩
    · simp [add_movie_batch_to_mongo, prepare_mongo_records]
    · intro s hs
      simp [normalizeCell, hs]
    · intro s d hs
      simp [normalizeCell, hs]

/-- C9 witness: a two-row batch with a missing title, a valid date and an
invalid date, processed with a parser recognizing only `"2021-01-01"`:
the records inserted are the normalized rows, with the missing cell null
and the bad date null. -/
theorem C9_batch_normalization_witness :
    prepare_mongo_records (fun s => if s = "2021-01-01" then some 5 else none)
      [[("title", Cell.str "A"), ("date_added", Cell.str "2021-01-01")],
        [("title", Cell.missing), ("date_added", Cell.str "garbage")]] =
      some [[("title", MVal.str "A"), ("date_added", MVal.date 5)],
        [("title", MVal.null), ("date_added", MVal.null)]] ∧
    add_movie_batch_to_mongo (fun s => if s = "2021-01-01" then some 5 else none) []
      [[("title", Cell.str "A"), ("date_added", Cell.str "2021-01-01")],
        [("title", Cell.missing), ("date_added", Cell.str "garbage")]] =
      [[("title", MVal.str "A"), ("date_added", MVal.date 5)],
        [("title", MVal.null), ("date_added", MVal.null)]] :=
  ⟨((C9_batch_normalization (fun s => if s = "2021-01-01" then some 5 else none) []
      [[("title", Cell.str "A"), ("date_added", Cell.str "2021-01-01")],
        [("title", Cell.missing), ("date_added", Cell.str "garbage")]]
      (by decide)).1).trans (by decide),
    ((C9_batch_normalization (fun s => if s = "2021-01-01" then some 5 else none) []
      [[("title", Cell.str "A"), ("date_added", Cell.str "2021-01-01")],
        [("title", Cell.missing), ("date_added", Cell.str "garbage")]]
      (by decide)).2.1).trans (by decide)⟩

/-- C10: `update_redis_metadata` only replaces the `status` field of the
addressed session: for every existing record, whatever record is stored
under that id after the call has the same `file_id`, `total_chunks` and
`chunks_uploaded` as before, and every other key of the store is untouched. -/
theorem C10_setStatus_frame (store : Store) (fid status : String) (m : Rec)
    (hm : store fid = some m) :
    (∀ m', (update_redis_metadata store fid status) fid = some m' →
      m'.file_id = m.file_id ∧ m'.total_chunks = m.total_chunks ∧
        m'.chunks_uploaded = m.chunks_uploaded) ∧
    (∀ k, k ≠ fid → (update_redis_metadata store fid status) k = store k) := by
  by_cases hfid : fid = ""
  · subst hfid
    constructor
    · intro m' h'
      simp only [update_redis_metadata, if_pos] at h'
      rw [hm] at h'
      cases h'
      exact ⟨rfl, rfl, rfl⟩
    · intro k hk
      simp [update_redis_metadata]
  · constructor
    · intro m' h'
      have hv : update_redis_metadata store fid status fid = some { m with status := status } := by
        simp [update_redis_metadata, hfid, hm]
      rw [hv] at h'
      cases h'
      exact ⟨rfl, rfl, rfl⟩
    · intro k hk
      simp [update_redis_metadata, hfid, hm, hk]

/-- C10 witness: setting the status of a stored session to `"Completed"`
keeps its `file_id`, `total_chunks` and `chunks_uploaded`, and leaves the
other key `"g"` untouched. -/
theorem C10_setStatus_frame_witness :
    ((Rec.mk "f" 3 1 "Completed").file_id = (Rec.mk "f" 3 1 "Processing").file_id ∧
      (Rec.mk "f" 3 1 "Completed").total_chunks = (Rec.mk "f" 3 1 "Processing").total_chunks ∧
      (Rec.mk "f" 3 1 "Completed").chunks_uploaded = (Rec.mk "f" 3 1 "Processing").chunks_uploaded) ∧
    (update_redis_metadata (fun k => if k = "f" then some ⟨"f", 3, 1, "Processing"⟩ else none)
      "f" "Completed") "g" =
      (fun k => if k = "f" then some (⟨"f", 3, 1, "Processing"⟩ : Rec) else none) "g" :=
  ⟨(C10_setStatus_frame
      (fun k => if k = "f" then some ⟨"f", 3, 1, "Processing"⟩ else none)
      "f" "Completed" ⟨"f", 3, 1, "Processing"⟩ (by decide)).1
      ⟨"f", 3, 1, "Completed"⟩ (by decide),
    (C10_setStatus_frame
      (fun k => if k = "f" then some ⟨"f", 3, 1, "Processing"⟩ else none)
      "f" "Completed" ⟨"f", 3, 1, "Processing"⟩ (by decide)).2 "g" (by decide)⟩

end LFP
